import Mathlib

/-!
Shallow embedding of the sqlite-wasm-easy request/response core.

The repository wraps a SQLite engine compiled to WebAssembly behind a
worker boundary.  Two components are modelled here, straight from the
source files:

* the executor (`src/worker/sqliteWorker.ts`): module-scoped connection
  state, the per-operation functions (`initDatabase`, `openDatabase`,
  `closeDatabase`, `execSQL`, `querySQL`, `runSQL`, `exportDatabase`,
  `importDatabase`, `deleteDatabase`), the dispatch
  `handleDatabaseOperation`, and the message listener;
* the controller (`SQLiteWASM` class): the pending-request table,
  `sendMessage`, `handleWorkerMessage`, `ready`/`initialize`, the data
  operations and `close`.

The wrapped engine (SQLite itself, the VFS installers, `JSON.parse`) is
out of scope for the repository and is represented by an explicit
environment record of oracle functions; every state change performed by
the repository's own code is modelled step by step, including partial
mutations left behind when an engine call throws.
-/

namespace SqliteWasmEasy

/-- Structured data as produced by `JSON.parse` (opaque to the library:
the library only stores the parsed value in the row object). -/
inductive Json where
  | jnull : Json
  | jbool : Bool → Json
  | jnum : Int → Json
  | jstr : String → Json
  | jarr : List Json → Json
  | jobj : List (String × Json) → Json

/-- A JavaScript value as it can appear in a result row cell or in a
bound parameter: SQLite produces `null`, numbers, strings and blobs;
after the opportunistic re-parse a structured `Json` value can be
stored instead.  `undef` models JavaScript `undefined` (out-of-range
array access). -/
inductive JSVal where
  | vnull : JSVal
  | vint : Int → JSVal
  | vstr : String → JSVal
  | vblob : List Nat → JSVal
  | vjson : Json → JSVal
  | undef : JSVal

/-- A JavaScript object used as a row object: association list of
column name to value, in insertion order; assigning to an existing key
overwrites in place (JavaScript object semantics). -/
abbrev RowObj := List (String × JSVal)

/-- JavaScript `rowObject[key] = v`: overwrite in place when the key is
present, append otherwise. -/
def setKey (obj : RowObj) (k : String) (v : JSVal) : RowObj :=
  if obj.any (fun p => p.1 = k) then
    obj.map (fun p => if p.1 = k then (k, v) else p)
  else obj ++ [(k, v)]

/-- JavaScript `value.startsWith(p)` for a one-character prefix `p`
(the only shape the worker uses): true exactly when the first character
of `s` is `c`. -/
def jsStartsWith (s : String) (c : Char) : Bool :=
  match s.data with
  | [] => false
  | c0 :: _ => c0 = c

/-- The opening curly brace character (written with an escape). -/
def openBraceChar : Char := '\x7b'

/-- The per-cell auto-parse step of `querySQL` (sqliteWorker.ts lines
131-140): a string value that starts with a brace or a bracket is
passed to `JSON.parse`; on success the parsed value is stored, on
failure the raw string is kept; every other value is stored unchanged.
`parse` abstracts `JSON.parse` (`none` models a thrown `SyntaxError`). -/
def autoParse (parse : String → Option Json) (v : JSVal) : JSVal :=
  match v with
  | .vstr s =>
    if jsStartsWith s openBraceChar || jsStartsWith s '[' then
      match parse s with
      | some j => .vjson j
      | none => .vstr s
    else .vstr s
  | v => v

/-- The row-object building loop of `querySQL` (lines 126-141): for
each column index `i`, store the (auto-parsed) `row[i]` under
`columns[i]`. -/
def buildRow (parse : String → Option Json) (columns : List String)
    (row : List JSVal) : RowObj :=
  (List.range columns.length).foldl
    (fun obj i => setKey obj (columns.getD i "") (autoParse parse (row.getD i .undef)))
    []

/-- What the engine emits for one query: the column-name list reported
by `statement.getColumnNames()` and the rows in emission order. -/
structure QueryEmission where
  columns : List String
  rows : List (List JSVal)

/-- The result collection of `querySQL` (lines 120-147): one
`results.push(rowObject)` per engine callback invocation, in emission
order. -/
def collectRows (parse : String → Option Json) (em : QueryEmission) : List RowObj :=
  em.rows.foldl (fun results row => results ++ [buildRow parse em.columns row]) []

/-- The three storage backends of `VFSType` (types/index.ts line 4). -/
inductive VFSType where
  | opfs | opfsSahpool | memdb
deriving DecidableEq

/-- Model of `SQLiteWASMConfig` as consumed by the worker: the fields the worker
reads (`config.filename`, `config.vfs?.type`, `config.vfs?.poolConfig`,
`config.pragma` entries, `config.logging?.filterSqlTrace`), flattened
with one `Option` per optional leaf.  A pragma entry with value `none`
models an `undefined` entry, which the worker skips. -/
structure SQLiteWASMConfig where
  filename : String
  vfsType : Option VFSType
  poolInitialCapacity : Option Nat
  poolClearOnInit : Option Bool
  poolName : Option String
  pragma : List (String × Option String)
  filterSqlTrace : Option Bool
deriving DecidableEq

/-- Capabilities of the `PoolUtil` handle: which of the optionally
present backend methods exist (`exportFile`, `importDb`, `wipeFiles`)
— probed by the worker with `PoolUtil?.method` checks. -/
structure PoolCaps where
  hasExportFile : Bool
  hasImportDb : Bool
  hasWipeFiles : Bool
deriving DecidableEq

/-- JavaScript `x || d` on an optional number: `undefined` and `0` are
falsy. -/
def jsOrNat (x : Option Nat) (d : Nat) : Nat :=
  match x with
  | none => d
  | some n => if n = 0 then d else n

/-- JavaScript `x || d` on an optional string: `undefined` and the
empty string are falsy. -/
def jsOrStr (x : Option String) (d : String) : String :=
  match x with
  | none => d
  | some s => if s = "" then d else s

/-- JavaScript `!x` on an optional string (`undefined` and `""` are
falsy) — used by the `if (!sql)` / `if (!filename)` guards. -/
def strFalsy (x : Option String) : Bool :=
  match x with
  | none => true
  | some s => s = ""

/-- The wrapped engine and platform, as an oracle record: results of the
module import, the engine bootstrap, the VFS installers, database
construction, `db.exec`, `db.changes`, `db.selectValue`, the backend
file operations, `db.close`, and `JSON.parse`.  Everything the worker
file calls but does not itself implement. -/
structure EngineEnv where
  parse : String → Option Json
  importWasmModule : Except String Unit
  initWasmModule : Except String Unit
  installSAHPool : Nat → Bool → String → Except String PoolCaps
  opfsUtil : Option PoolCaps
  newSAHPoolDb : String → Except String Unit
  newMemDb : Except String Unit
  hasOpfsDbCtor : Bool
  newOpfsDb : String → Except String Unit
  dbExec : String → List JSVal → Except String Unit
  dbQuery : String → List JSVal → Except String QueryEmission
  dbChanges : Nat
  selectLastRowid : Except String Int
  fileContents : String → Except String (List Nat)
  importDbFile : String → List Nat → Except String Unit
  wipeFiles : Except String Unit
  dbClose : Except String Unit

/-- The worker's module-scoped state (sqliteWorker.ts lines 3-7):
whether `sqlite3InitModule` and `sqlite3` are non-null, the `PoolUtil`
handle, whether `db` is non-null, and `currentConfig`. -/
structure WorkerState where
  moduleLoaded : Bool
  engineLoaded : Bool
  poolUtil : Option PoolCaps
  dbOpen : Bool
  currentConfig : Option SQLiteWASMConfig
deriving DecidableEq

/-- Model of `initDatabase` (lines 9-59): stores the config first, then loads
the module, bootstraps the engine, and installs the VFS selected by
`config.vfs?.type || 'opfs'`.  Partial mutations before a failure are
kept, as in the source (module-scoped assignments).  There is no guard
against an already-open `db`. -/
def initDatabase (env : EngineEnv) (s : WorkerState) (config : SQLiteWASMConfig) :
    WorkerState × Except String Unit :=
  let s0 := { s with currentConfig := some config }
  match env.importWasmModule with
  | .error e => (s0, .error e)
  | .ok _ =>
    let s1 := { s0 with moduleLoaded := true }
    match env.initWasmModule with
    | .error e => (s1, .error e)
    | .ok _ =>
      let s2 := { s1 with engineLoaded := true }
      match config.vfsType.getD .opfs with
      | .opfsSahpool =>
        match env.installSAHPool (jsOrNat config.poolInitialCapacity 3)
            (config.poolClearOnInit.getD false)
            (jsOrStr config.poolName "sqlite-wasm-pool") with
        | .error e => (s2, .error e)
        | .ok caps => ({ s2 with poolUtil := some caps }, .ok ())
      | .opfs => ({ s2 with poolUtil := env.opfsUtil }, .ok ())
      | .memdb => ({ s2 with poolUtil := none }, .ok ())

/-- The pragma-application loop of `openDatabase` (lines 88-94):
entries with `undefined` values are skipped, the rest run
`PRAGMA key = value` sequentially; the first failure aborts the rest. -/
def applyPragmas (env : EngineEnv) : List (String × Option String) → Except String Unit
  | [] => .ok ()
  | (_, none) :: rest => applyPragmas env rest
  | (k, some v) :: rest =>
    match env.dbExec ("PRAGMA " ++ k ++ " = " ++ v) [] with
    | .error e => .error e
    | .ok _ => applyPragmas env rest

/-- Model of `openDatabase` (lines 61-95): errors when `db` is already set;
otherwise constructs the database through the backend selected from
`currentConfig`, then applies the pragma set. -/
def openDatabase (env : EngineEnv) (s : WorkerState) (filename : String) :
    WorkerState × Except String Unit :=
  if s.dbOpen then (s, .error "Database already opened")
  else
    let vfsType := (s.currentConfig.bind (fun c => c.vfsType)).getD .opfs
    let ctor : Except String Unit :=
      if vfsType = .opfsSahpool ∧ s.poolUtil.isSome then env.newSAHPoolDb filename
      else if vfsType = .memdb then env.newMemDb
      else if ¬ env.hasOpfsDbCtor then
        .error ("OPFS VFS is not available. This usually means your server is not configured with " ++
          "the required COOP/COEP headers (Cross-Origin-Opener-Policy: same-origin, " ++
          "Cross-Origin-Embedder-Policy: require-corp). Consider using \x27opfs-sahpool\x27 instead, " ++
          "which does not require these headers.")
      else env.newOpfsDb filename
    match ctor with
    | .error e => (s, .error e)
    | .ok _ =>
      let s1 := { s with dbOpen := true }
      match s1.currentConfig with
      | some cfg =>
        match applyPragmas env cfg.pragma with
        | .error e => (s1, .error e)
        | .ok _ => (s1, .ok ())
      | none => (s1, .ok ())

/-- Model of `closeDatabase` (lines 97-105): errors when no `db`; on a
successful `db.close()` clears every module-scoped variable. -/
def closeDatabase (env : EngineEnv) (s : WorkerState) :
    WorkerState × Except String Unit :=
  if ¬ s.dbOpen then (s, .error "Database not opened")
  else
    match env.dbClose with
    | .error e => (s, .error e)
    | .ok _ =>
      ({ moduleLoaded := false, engineLoaded := false, poolUtil := none,
         dbOpen := false, currentConfig := none }, .ok ())

/-- Model of `execSQL` (lines 107-115). -/
def execSQL (env : EngineEnv) (s : WorkerState) (sql : String) (params : List JSVal) :
    WorkerState × Except String Unit :=
  if ¬ s.dbOpen then (s, .error "Database not opened")
  else (s, env.dbExec sql params)

/-- Model of `querySQL` (lines 117-148): requires an open `db`; the engine emits
rows in order and the callback pushes one built row object per emitted
row. -/
def querySQL (env : EngineEnv) (s : WorkerState) (sql : String) (params : List JSVal) :
    WorkerState × Except String (List RowObj) :=
  if ¬ s.dbOpen then (s, .error "Database not opened")
  else
    match env.dbQuery sql params with
    | .error e => (s, .error e)
    | .ok em => (s, .ok (collectRows env.parse em))

/-- Run metadata returned by `runSQL`. -/
structure RunResult where
  lastInsertRowId : Option Int
  changes : Nat
deriving DecidableEq

/-- Model of `runSQL` (lines 150-169): executes the statement, then reads
`Number(db.changes) || 0` and, only when that count is positive,
`Number(db.selectValue('SELECT last_insert_rowid()'))`; otherwise
`lastInsertRowId` is `undefined`. -/
def runSQL (env : EngineEnv) (s : WorkerState) (sql : String) (params : List JSVal) :
    WorkerState × Except String RunResult :=
  if ¬ s.dbOpen then (s, .error "Database not opened")
  else
    match env.dbExec sql params with
    | .error e => (s, .error e)
    | .ok _ =>
      let changesCount := env.dbChanges
      if changesCount > 0 then
        match env.selectLastRowid with
        | .error e => (s, .error e)
        | .ok v => (s, .ok { lastInsertRowId := some v, changes := changesCount })
      else (s, .ok { lastInsertRowId := none, changes := changesCount })

/-- Model of `exportDatabase` (lines 171-178): requires `PoolUtil?.exportFile`;
reads the file named after `currentConfig?.filename` (a null config
interpolates as the string "undefined", as in JavaScript). -/
def exportDatabase (env : EngineEnv) (s : WorkerState) :
    WorkerState × Except String (List Nat) :=
  match s.poolUtil with
  | none => (s, .error "Export not supported for this VFS type")
  | some caps =>
    if ¬ caps.hasExportFile then (s, .error "Export not supported for this VFS type")
    else (s, env.fileContents ("/" ++ ((s.currentConfig.map (fun c => c.filename)).getD "undefined")))

/-- Model of `importDatabase` (lines 180-186): requires `PoolUtil?.importDb`. -/
def importDatabase (env : EngineEnv) (s : WorkerState) (filename : String) (data : List Nat) :
    WorkerState × Except String Unit :=
  match s.poolUtil with
  | none => (s, .error "Import not supported for this VFS type")
  | some caps =>
    if ¬ caps.hasImportDb then (s, .error "Import not supported for this VFS type")
    else (s, env.importDbFile filename data)

/-- Model of `deleteDatabase` (lines 188-197): closes `db` if open (a close
failure propagates), then wipes the pool files when the capability is
present. -/
def deleteDatabase (env : EngineEnv) (s : WorkerState) :
    WorkerState × Except String Unit :=
  let step1 : WorkerState × Except String Unit :=
    if s.dbOpen then
      match env.dbClose with
      | .error e => (s, .error e)
      | .ok _ => ({ s with dbOpen := false }, .ok ())
    else (s, .ok ())
  match step1 with
  | (s1, .error e) => (s1, .error e)
  | (s1, .ok _) =>
    match s1.poolUtil with
    | some caps =>
      if caps.hasWipeFiles then (s1, env.wipeFiles) else (s1, .ok ())
    | none => (s1, .ok ())

/-- Model of `WorkerOperation` (types/index.ts lines 107-116), with an extra
`unknown` constructor modelling an untyped message whose operation
string matches none of the nine kinds (the `default` branch of the
dispatch switch). -/
inductive WorkerOperation where
  | initOp | openOp | closeOp | execOp | queryOp | runOp
  | exportOp | importOp | deleteOp
  | unknown : String → WorkerOperation
deriving DecidableEq

/-- Model of `WorkerMessage` (types/index.ts lines 118-126). -/
structure WorkerMessage where
  id : String
  operation : WorkerOperation
  sql : Option String
  params : Option (List JSVal)
  config : Option SQLiteWASMConfig
  filename : Option String
  data : Option (List Nat)

/-- Response status (types/index.ts line 130). -/
inductive RespStatus where
  | success | respError | ready
deriving DecidableEq

/-- The possible shapes of `WorkerResponse.results`. -/
inductive OpResults where
  | rows : List RowObj → OpResults
  | runRes : RunResult → OpResults
  | bytes : List Nat → OpResults

/-- Model of `WorkerResponse` (types/index.ts lines 128-133). -/
structure WorkerResponse where
  id : String
  status : RespStatus
  results : Option OpResults
  error : Option String

/-- The body of the dispatch switch (sqliteWorker.ts lines 203-258),
without the surrounding try/catch: the per-operation guards and calls,
yielding the status and results of the success response, or the thrown
error.  The state is returned in both cases because the operation
functions mutate module-scoped variables before they can throw. -/
def performOperation (env : EngineEnv) (s : WorkerState) (m : WorkerMessage) :
    WorkerState × Except String (RespStatus × Option OpResults) :=
  match m.operation with
  | .initOp =>
    match m.config with
    | none => (s, .error "Configuration required for init")
    | some cfg =>
      let (s1, r) := initDatabase env s cfg
      (s1, r.map (fun _ => (.ready, none)))
  | .openOp =>
    if strFalsy m.filename then (s, .error "Filename required for open")
    else
      let (s1, r) := openDatabase env s (m.filename.getD "")
      (s1, r.map (fun _ => (.success, none)))
  | .closeOp =>
    let (s1, r) := closeDatabase env s
    (s1, r.map (fun _ => (.success, none)))
  | .execOp =>
    if strFalsy m.sql then (s, .error "SQL required for exec")
    else
      let (s1, r) := execSQL env s (m.sql.getD "") (m.params.getD [])
      (s1, r.map (fun _ => (.success, none)))
  | .queryOp =>
    if strFalsy m.sql then (s, .error "SQL required for query")
    else
      let (s1, r) := querySQL env s (m.sql.getD "") (m.params.getD [])
      (s1, r.map (fun rs => (.success, some (.rows rs))))
  | .runOp =>
    if strFalsy m.sql then (s, .error "SQL required for run")
    else
      let (s1, r) := runSQL env s (m.sql.getD "") (m.params.getD [])
      (s1, r.map (fun rr => (.success, some (.runRes rr))))
  | .exportOp =>
    let (s1, r) := exportDatabase env s
    (s1, r.map (fun b => (.success, some (.bytes b))))
  | .importOp =>
    if strFalsy m.filename ∨ m.data = none then
      (s, .error "Filename and data required for import")
    else
      let (s1, r) := importDatabase env s (m.filename.getD "") (m.data.getD [])
      (s1, r.map (fun _ => (.success, none)))
  | .deleteOp =>
    let (s1, r) := deleteDatabase env s
    (s1, r.map (fun _ => (.success, none)))
  | .unknown op => (s, .error ("Unknown operation: " ++ op))

/-- Model of `handleDatabaseOperation` (lines 199-262): the switch wrapped in
try/catch; a thrown error becomes an error-status response carrying the
error's message, a normal return becomes the corresponding response,
always carrying the request's `id`. -/
def handleDatabaseOperation (env : EngineEnv) (s : WorkerState) (m : WorkerMessage) :
    WorkerState × WorkerResponse :=
  match performOperation env s m with
  | (s1, .error e) =>
    (s1, { id := m.id, status := .respError, results := none, error := some e })
  | (s1, .ok (st, res)) =>
    (s1, { id := m.id, status := st, results := res, error := none })

/-- The worker message listener (lines 265-275): an origin mismatch
(with both origins present and non-empty) is answered with an error
response and the operation is not performed; otherwise the dispatch
result is posted.  Origins are optional strings; `none` models both an
absent and an empty (falsy) origin. -/
def onMessage (env : EngineEnv) (selfOrigin eventOrigin : Option String)
    (s : WorkerState) (m : WorkerMessage) : WorkerState × WorkerResponse :=
  match selfOrigin, eventOrigin with
  | some so, some eo =>
    if eo ≠ so then
      (s, { id := m.id, status := .respError, results := none, error := some "Invalid message origin" })
    else handleDatabaseOperation env s m
  | _, _ => handleDatabaseOperation env s m

/-- The correlation id assigned by `sendMessage`:
`` `msg_${++this.messageId}` `` — the string "msg_" followed by the
decimal representation of the incremented counter. -/
def msgKey (k : Nat) : String := "msg_" ++ Nat.repr k

/-- The controller's state (`SQLiteWASM` class fields, part_001 lines
15-23): the merged configuration, the worker reference (modelled as a
serial number so that fresh workers are distinguishable, plus a count
of workers created), the message counter, the pending-request table
(the set of ids with stored continuations, in insertion order), and
the readiness fields.  `readyPromise` holds the settled outcome of the
cached `initialize()` promise. -/
structure CtrlState where
  cfg : SQLiteWASMConfig
  workerCount : Nat
  worker : Option Nat
  messageId : Nat
  pending : List String
  isReady : Bool
  readyPromise : Option (Except String Unit)

/-- Model of `sendMessage` (lines 84-95): rejects synchronously when no worker;
otherwise increments the counter, stores the continuation pair under
the fresh id, and posts the message.  Returns the id of the posted
request. -/
def sendMessage (s : CtrlState) : CtrlState × Except String String :=
  match s.worker with
  | none => (s, .error "Worker not initialized")
  | some _ =>
    let nid := s.messageId + 1
    ({ s with messageId := nid, pending := s.pending ++ [msgKey nid] }, .ok (msgKey nid))

/-- Model of `handleWorkerMessage` (lines 69-82): look up the response id; a
miss returns with no effect; a hit deletes the entry and settles the
stored promise (reject on error status with the carried message or
"Unknown error", resolve with `response.results` otherwise).  The
second component reports the settling action, `none` when the response
was dropped. -/
def handleWorkerMessage (s : CtrlState) (resp : WorkerResponse) :
    CtrlState × Option (Except String (Option OpResults)) :=
  if resp.id ∈ s.pending then
    ({ s with pending := s.pending.erase resp.id },
      some (if resp.status = .respError then .error (resp.error.getD "Unknown error")
            else .ok resp.results))
  else (s, none)

/-- The request payloads the controller sends. -/
inductive CtrlReq where
  | initReq : SQLiteWASMConfig → CtrlReq
  | openReq : String → CtrlReq
  | closeReq : CtrlReq
  | execReq : String → Option (List JSVal) → CtrlReq
  | queryReq : String → Option (List JSVal) → CtrlReq
  | runReq : String → Option (List JSVal) → CtrlReq

/-- The executor as seen by the controller: for the n-th posted message
(and its payload), the settled outcome of the returned promise. -/
structure CtrlEnv where
  respond : Nat → CtrlReq → Except String (Option OpResults)

/-- The response that settles a pending promise with the given
outcome. -/
def outcomeToResp (id : String) (o : Except String (Option OpResults)) : WorkerResponse :=
  match o with
  | .error e => { id := id, status := .respError, results := none, error := some e }
  | .ok r => { id := id, status := .success, results := r, error := none }

/-- One send-then-await round trip: `sendMessage` followed by the
arrival of the correlated response, which `handleWorkerMessage`
dispatches to the stored continuation.  The awaited value is the one
the settling action carries. -/
def awaitSend (env : CtrlEnv) (s : CtrlState) (req : CtrlReq) :
    CtrlState × Except String (Option OpResults) :=
  match sendMessage s with
  | (s1, .error e) => (s1, .error e)
  | (s1, .ok id) =>
    let outcome := env.respond s1.messageId req
    match handleWorkerMessage s1 (outcomeToResp id outcome) with
    | (s2, some settled) => (s2, settled)
    | (s2, none) => (s2, outcome)

/-- Model of `initialize` (lines 41-67): creates a fresh worker, registers the
message handler, then awaits the init request and the open request in
sequence; the first failure propagates (the worker already created is
kept). -/
def initCtrl (env : CtrlEnv) (s : CtrlState) : CtrlState × Except String Unit :=
  let w := s.workerCount
  let s0 := { s with workerCount := w + 1, worker := some w }
  match awaitSend env s0 (.initReq s0.cfg) with
  | (s1, .error e) => (s1, .error e)
  | (s1, .ok _) =>
    match awaitSend env s1 (.openReq s1.cfg.filename) with
    | (s2, .error e) => (s2, .error e)
    | (s2, .ok _) => (s2, .ok ())

/-- Model of `ready` (lines 32-39): returns at once when ready; returns the
cached `readyPromise` outcome when one exists; otherwise runs
`initialize`, caches its promise, and marks the controller ready only
after a successful await.  A failed `initialize` leaves the failed
promise cached. -/
def readyCtrl (env : CtrlEnv) (s : CtrlState) : CtrlState × Except String Unit :=
  if s.isReady then (s, .ok ())
  else
    match s.readyPromise with
    | some out => (s, out)
    | none =>
      let (s1, out) := initCtrl env s
      let s2 := { s1 with readyPromise := some out }
      match out with
      | .ok _ => ({ s2 with isReady := true }, .ok ())
      | .error e => (s2, .error e)

/-- Model of `exec` (lines 100-103): awaits readiness when not ready, then sends
an exec request. -/
def execCtrl (env : CtrlEnv) (s : CtrlState) (sql : String) (params : Option (List JSVal)) :
    CtrlState × Except String (Option OpResults) :=
  if ¬ s.isReady then
    match readyCtrl env s with
    | (s1, .error e) => (s1, .error e)
    | (s1, .ok _) => awaitSend env s1 (.execReq sql params)
  else awaitSend env s (.execReq sql params)

/-- Model of `query` (lines 108-111). -/
def queryCtrl (env : CtrlEnv) (s : CtrlState) (sql : String) (params : Option (List JSVal)) :
    CtrlState × Except String (Option OpResults) :=
  if ¬ s.isReady then
    match readyCtrl env s with
    | (s1, .error e) => (s1, .error e)
    | (s1, .ok _) => awaitSend env s1 (.queryReq sql params)
  else awaitSend env s (.queryReq sql params)

/-- Model of `run` (lines 116-119). -/
def runCtrl (env : CtrlEnv) (s : CtrlState) (sql : String) (params : Option (List JSVal)) :
    CtrlState × Except String (Option OpResults) :=
  if ¬ s.isReady then
    match readyCtrl env s with
    | (s1, .error e) => (s1, .error e)
    | (s1, .ok _) => awaitSend env s1 (.runReq sql params)
  else awaitSend env s (.runReq sql params)

/-- Model of `close` (lines 185-193): no-op when not ready; otherwise awaits the
close request and — only when that await does not throw — terminates
the worker and resets the readiness fields. -/
def closeCtrl (env : CtrlEnv) (s : CtrlState) : CtrlState × Except String Unit :=
  if ¬ s.isReady then (s, .ok ())
  else
    match awaitSend env s .closeReq with
    | (s1, .error e) => (s1, .error e)
    | (s1, .ok _) =>
      ({ s1 with worker := none, isReady := false, readyPromise := none }, .ok ())

/-- Decimal digit value of a digit character. -/
def decDigit (c : Char) : Nat := c.toNat - 48

/-- Value of a most-significant-first decimal digit string. -/
def decVal (l : List Char) : Nat :=
  l.foldl (fun a c => a * 10 + decDigit c) 0

/-- The pending-table invariant: entries are distinct and every entry
is the key of some already-assigned counter value. -/
def CtrlInv (s : CtrlState) : Prop :=
  s.pending.Nodup ∧ ∀ id ∈ s.pending, ∃ k, 1 ≤ k ∧ k ≤ s.messageId ∧ id = msgKey k

/-- A minimal in-memory configuration. -/
def cfg0 : SQLiteWASMConfig :=
  { filename := "t.db", vfsType := some .memdb, poolInitialCapacity := none,
    poolClearOnInit := none, poolName := none, pragma := [], filterSqlTrace := none }

/-- The same configuration with a different filename. -/
def cfg1 : SQLiteWASMConfig := { cfg0 with filename := "other.db" }

/-- An engine environment in which every engine call succeeds and a
statement changes no rows. -/
def engineEnvOk : EngineEnv :=
  { parse := fun _ => none
    importWasmModule := .ok ()
    initWasmModule := .ok ()
    installSAHPool := fun _ _ _ =>
      .ok { hasExportFile := true, hasImportDb := true, hasWipeFiles := true }
    opfsUtil := none
    newSAHPoolDb := fun _ => .ok ()
    newMemDb := .ok ()
    hasOpfsDbCtor := true
    newOpfsDb := fun _ => .ok ()
    dbExec := fun _ _ => .ok ()
    dbQuery := fun _ _ => .ok { columns := [], rows := [] }
    dbChanges := 0
    selectLastRowid := .ok 0
    fileContents := fun _ => .ok []
    importDbFile := fun _ _ => .ok ()
    wipeFiles := .ok ()
    dbClose := .ok () }

/-- As `engineEnvOk` but one row changed and last-insert-id 42. -/
def engineEnvCh1 : EngineEnv :=
  { engineEnvOk with dbChanges := 1, selectLastRowid := .ok 42 }

/-- Worker state after a memdb init and a successful open. -/
def openedState : WorkerState :=
  { moduleLoaded := true, engineLoaded := true, poolUtil := none,
    dbOpen := true, currentConfig := some cfg0 }

/-- An init request carrying `cfg1`. -/
def initMsg : WorkerMessage :=
  { id := "m1", operation := .initOp, sql := none, params := none,
    config := some cfg1, filename := none, data := none }

/-- An exec request with no SQL payload. -/
def execNoSqlMsg : WorkerMessage :=
  { id := "m2", operation := .execOp, sql := none, params := none,
    config := none, filename := none, data := none }

/-- An export request. -/
def exportMsg : WorkerMessage :=
  { id := "m3", operation := .exportOp, sql := none, params := none,
    config := none, filename := none, data := none }

/-- An import request with payload. -/
def importMsg : WorkerMessage :=
  { id := "m4", operation := .importOp, sql := none, params := none,
    config := none, filename := some "t.db", data := some [1, 2, 3] }

/-- A controller environment whose executor answers every request with
a success response carrying no results. -/
def ctrlEnvOk : CtrlEnv := { respond := fun _ _ => .ok none }

/-- A controller environment whose executor answers the first posted
message with an error and every later one with success. -/
def ctrlEnvFailFirst : CtrlEnv :=
  { respond := fun n _ => if n = 1 then .error "boom" else .ok none }

/-- A controller environment whose executor answers close requests with
an error response and everything else with success. -/
def ctrlEnvCloseFails : CtrlEnv :=
  { respond := fun _ req =>
      match req with
      | .closeReq => .error "close failed"
      | _ => .ok none }

/-- A freshly constructed controller. -/
def freshState : CtrlState :=
  { cfg := cfg0, workerCount := 0, worker := none, messageId := 0,
    pending := [], isReady := false, readyPromise := none }

/-- A controller that completed `ready()`: one worker created, the two
startup requests answered, no request outstanding. -/
def readyState : CtrlState :=
  { cfg := cfg0, workerCount := 1, worker := some 0, messageId := 2,
    pending := [], isReady := true, readyPromise := some (.ok ()) }

/-- A stray response correlating to no outstanding request. -/
def strayResp : WorkerResponse :=
  { id := "msg_9", status := .success, results := none, error := none }

/-- A controller with two requests outstanding. -/
def sPend : CtrlState :=
  { cfg := cfg0, workerCount := 1, worker := some 0, messageId := 2,
    pending := [msgKey 1, msgKey 2], isReady := true, readyPromise := some (.ok ()) }

/-- A success response for the second outstanding request of `sPend`. -/
def resp2 : WorkerResponse :=
  { id := msgKey 2, status := .success, results := none, error := none }

/-- A concrete `JSON.parse` oracle: "[1]" parses to the array [1],
everything else fails to parse. -/
def parse1 : String → Option Json :=
  fun s => if s = "[1]" then some (.jarr [.jnum 1]) else none

/-- A concrete two-column, two-row query emission. -/
def em1 : QueryEmission :=
  { columns := ["a", "b"],
    rows := [[.vint 1, .vstr "x"], [.vint 2, .vstr "[1]"]] }

/-!  The claims.  One theorem per claim, with its witness or
counterexample where called for. -/

theorem collectRows_eq_map (parse : String → Option Json) (em : QueryEmission) :
    collectRows parse em = em.rows.map (buildRow parse em.columns) := by
  suffices h : ∀ (rs : List (List JSVal)) (acc : List RowObj),
      rs.foldl (fun results row => results ++ [buildRow parse em.columns row]) acc
        = acc ++ rs.map (buildRow parse em.columns) by
    simpa using h em.rows []
  intro rs
  induction rs with
  | nil => simp
  | cons r rs ih => intro acc; simp [List.foldl_cons, ih]

theorem decDigit_digitChar (m : Nat) (h : m < 10) :
    decDigit (Nat.digitChar m) = m := by
  interval_cases m <;> rfl

theorem toDigitsCore_append (fuel : Nat) :
    ∀ (n : Nat) (ds : List Char),
    Nat.toDigitsCore 10 fuel n ds = Nat.toDigitsCore 10 fuel n [] ++ ds := by
  induction fuel with
  | zero => intro n ds; simp [Nat.toDigitsCore]
  | succ fuel ih =>
    intro n ds
    simp only [Nat.toDigitsCore]
    by_cases h : n / 10 = 0
    · simp [h]
    · simp only [if_neg h]
      rw [ih (n / 10) (Nat.digitChar (n % 10) :: ds), ih (n / 10) [Nat.digitChar (n % 10)]]
      simp

theorem foldl_toDigitsCore (fuel : Nat) :
    ∀ (n acc : Nat), n < 10 ^ fuel →
    List.foldl (fun a c => a * 10 + decDigit c) acc (Nat.toDigitsCore 10 fuel n []) =
      acc * 10 ^ (Nat.toDigitsCore 10 fuel n []).length + n := by
  induction fuel with
  | zero =>
    intro n acc h
    have : n = 0 := by omega
    subst this
    simp [Nat.toDigitsCore]
  | succ fuel ih =>
    intro n acc h
    have hm : n % 10 < 10 := Nat.mod_lt _ (by norm_num)
    simp only [Nat.toDigitsCore]
    by_cases h0 : n / 10 = 0
    · have hn : n < 10 := by omega
      simp [h0, List.foldl, Nat.mod_eq_of_lt hn, decDigit_digitChar n hn]
    · simp only [if_neg h0]
      rw [toDigitsCore_append]
      have hlt : n / 10 < 10 ^ fuel := by
        have hpow : 10 ^ (fuel + 1) = 10 ^ fuel * 10 := pow_succ 10 fuel
        omega
      rw [List.foldl_append, ih (n / 10) acc hlt]
      simp only [List.foldl, decDigit_digitChar (n % 10) hm, List.length_append,
        List.length_cons, List.length_nil]
      have hdm : n / 10 * 10 + n % 10 = n := by omega
      have hpow : 10 ^ ((Nat.toDigitsCore 10 fuel (n / 10) []).length + (0 + 1)) =
          10 ^ (Nat.toDigitsCore 10 fuel (n / 10) []).length * 10 := by
        simp [pow_succ]
      rw [hpow]
      ring_nf
      omega

theorem decVal_toDigits (n : Nat) : decVal (Nat.toDigits 10 n) = n := by
  have h1 : n < 10 ^ (n + 1) := by
    calc n < 2 ^ n := Nat.lt_two_pow n
    _ ≤ 10 ^ n := Nat.pow_le_pow_left (by norm_num) n
    _ ≤ 10 ^ (n + 1) := Nat.pow_le_pow_right (by norm_num) (Nat.le_succ n)
  simpa [decVal, Nat.toDigits] using foldl_toDigitsCore (n + 1) n 0 h1

theorem msgKey_injective : Function.Injective msgKey := by
  intro a b h
  have hdata : ("msg_".data ++ (Nat.toDigits 10 a)) = ("msg_".data ++ (Nat.toDigits 10 b)) := by
    have := congrArg String.data h
    simpa [msgKey, Nat.repr, String.data_append, List.asString] using this
  have hlist : Nat.toDigits 10 a = Nat.toDigits 10 b := by
    exact List.append_cancel_left hdata
  calc a = decVal (Nat.toDigits 10 a) := (decVal_toDigits a).symm
  _ = decVal (Nat.toDigits 10 b) := by rw [hlist]
  _ = b := decVal_toDigits b

theorem lookup_map_overwrite (t : RowObj) (k k' : String) (v : JSVal) :
    (t.map fun q => if q.1 = k then (k, v) else q).lookup k'
      = if k' = k then (if t.any fun q => q.1 = k then some v else none)
        else t.lookup k' := by
  induction t with
  | nil => by_cases h : k' = k <;> simp [h]
  | cons q t iht =>
    obtain ⟨qk, qv⟩ := q
    by_cases hq : qk = k
    · subst hq
      simp only [List.map_cons, if_pos rfl, List.any_cons]
      by_cases h : k' = qk
      · subst h; simp [List.lookup_cons]
      · have hb : (k' == qk) = false := by simp [h]
        simp only [List.lookup_cons, hb, decide_True, Bool.true_or, if_true, if_neg h]
        rw [iht]
        simp [h]
    · simp only [List.map_cons, if_neg hq, List.lookup_cons, List.any_cons]
      by_cases hqk' : k' = qk
      · have hb : (k' == qk) = true := by simp [hqk']
        have hne : ¬ k' = k := fun hc => hq (hqk' ▸ hc)
        simp [hb, hne]
      · have hb : (k' == qk) = false := by simp [hqk']
        have hd : decide (qk = k) = false := by simp [hq]
        simp only [hb]
        rw [iht]
        simp only [hd, Bool.false_or]

theorem lookup_setKey (obj : RowObj) (k k' : String) (v : JSVal) :
    (setKey obj k v).lookup k' = if k' = k then some v else obj.lookup k' := by
  by_cases hany : (obj.any fun q => q.1 = k) = true
  · simp only [setKey, hany, if_true]
    rw [lookup_map_overwrite]
    by_cases h : k' = k <;> simp [h, hany]
  · have hany' : (obj.any fun q => q.1 = k) = false := Bool.eq_false_iff.mpr hany
    simp only [setKey, hany', Bool.false_eq_true, if_false]
    rw [List.lookup_append]
    have hnone : obj.lookup k = none := by
      rw [List.lookup_eq_none_iff]
      rintro ⟨a, b⟩ hp
      refine bne_iff_ne.mpr ?_
      intro hc
      apply hany
      apply List.any_eq_true.mpr
      refine ⟨(a, b), hp, ?_⟩
      simp [hc]
    by_cases h : k' = k
    · subst h
      rw [hnone]
      simp [List.lookup_cons, Option.or]
    · have hb : (k' == k) = false := by simp [h]
      simp only [List.lookup_cons, hb, List.lookup_nil, if_neg h]
      cases hobj : obj.lookup k' <;> rfl

theorem getD_eq_getElem (l : List String) (j : Nat) (hj : j < l.length) :
    l.getD j "" = l[j] := by
  rw [List.getD_eq_getElem?_getD, List.getElem?_eq_getElem hj]
  rfl

theorem lookup_foldl_setKey (parse : String → Option Json) (columns : List String)
    (row : List JSVal) (hnd : columns.Nodup) (j : Nat) (hj : j < columns.length) :
    ∀ (is : List Nat) (acc : RowObj), (∀ i ∈ is, i < columns.length) →
    (is.foldl (fun obj i =>
        setKey obj (columns.getD i "") (autoParse parse (row.getD i .undef))) acc).lookup
        (columns.getD j "")
      = if j ∈ is then some (autoParse parse (row.getD j .undef))
        else acc.lookup (columns.getD j "") := by
  intro is
  induction is with
  | nil => intro acc _; simp
  | cons i t ih =>
    intro acc hmem
    simp only [List.foldl_cons]
    rw [ih _ (fun x hx => hmem x (List.mem_cons_of_mem _ hx))]
    by_cases hjt : j ∈ t
    · simp [hjt, List.mem_cons]
    · simp only [hjt, if_false]
      rw [lookup_setKey]
      by_cases hji : j = i
      · subst hji
        simp [List.mem_cons]
      · have hi : i < columns.length := hmem i (List.mem_cons_self i t)
        have hne : ¬ columns.getD j "" = columns.getD i "" := by
          rw [getD_eq_getElem _ _ hj, getD_eq_getElem _ _ hi]
          intro hc
          exact hji (hnd.getElem_inj_iff.mp hc)
        have hmm : ¬ j ∈ i :: t := by
          simp [List.mem_cons, hji, hjt]
        rw [if_neg hne, if_neg hmm]

theorem buildRow_lookup (parse : String → Option Json) (columns : List String)
    (row : List JSVal) (hnd : columns.Nodup) (j : Nat) (hj : j < columns.length) :
    (buildRow parse columns row).lookup (columns.getD j "")
      = some (autoParse parse (row.getD j .undef)) := by
  unfold buildRow
  rw [lookup_foldl_setKey parse columns row hnd j hj (List.range columns.length) []
    (fun x hx => List.mem_range.mp hx)]
  simp [List.mem_range, hj]

/-! Concrete fixtures for witnesses and counterexamples. -/

theorem performOperation_ok_status (env : EngineEnv) (s : WorkerState)
    (m : WorkerMessage) (s1 : WorkerState) (st : RespStatus) (res : Option OpResults)
    (hpo : performOperation env s m = (s1, .ok (st, res))) :
    st = .ready ∨ st = .success := by
  rcases m with ⟨id, op, sql, params, config, filename, data⟩
  cases op <;> simp only [performOperation] at hpo
  case initOp =>
    cases config with
    | none => simp at hpo
    | some cfg =>
      dsimp only at hpo
      rcases hi : initDatabase env s cfg with ⟨sa, r⟩
      rw [hi] at hpo
      cases r <;> simp_all [Except.map]
  case openOp =>
    by_cases hf : strFalsy filename = true
    · simp [hf] at hpo
    · simp only [Bool.not_eq_true] at hf
      simp only [hf, Bool.false_eq_true, if_false] at hpo
      rcases ho : openDatabase env s (filename.getD "") with ⟨sa, r⟩
      rw [ho] at hpo
      cases r <;> simp_all [Except.map]
  case closeOp =>
    rcases hc : closeDatabase env s with ⟨sa, r⟩
    rw [hc] at hpo
    cases r <;> simp_all [Except.map]
  case execOp =>
    by_cases hf : strFalsy sql = true
    · simp [hf] at hpo
    · simp only [Bool.not_eq_true] at hf
      simp only [hf, Bool.false_eq_true, if_false] at hpo
      rcases he : execSQL env s (sql.getD "") (params.getD []) with ⟨sa, r⟩
      rw [he] at hpo
      cases r <;> simp_all [Except.map]
  case queryOp =>
    by_cases hf : strFalsy sql = true
    · simp [hf] at hpo
    · simp only [Bool.not_eq_true] at hf
      simp only [hf, Bool.false_eq_true, if_false] at hpo
      rcases hq : querySQL env s (sql.getD "") (params.getD []) with ⟨sa, r⟩
      rw [hq] at hpo
      cases r <;> simp_all [Except.map]
  case runOp =>
    by_cases hf : strFalsy sql = true
    · simp [hf] at hpo
    · simp only [Bool.not_eq_true] at hf
      simp only [hf, Bool.false_eq_true, if_false] at hpo
      rcases hr : runSQL env s (sql.getD "") (params.getD []) with ⟨sa, r⟩
      rw [hr] at hpo
      cases r <;> simp_all [Except.map]
  case exportOp =>
    rcases he : exportDatabase env s with ⟨sa, r⟩
    rw [he] at hpo
    cases r <;> simp_all [Except.map]
  case importOp =>
    by_cases hg : strFalsy filename = true ∨ data = none
    · rw [if_pos hg] at hpo
      simp at hpo
    · rw [if_neg hg] at hpo
      rcases hi : importDatabase env s (filename.getD "") (data.getD []) with ⟨sa, r⟩
      rw [hi] at hpo
      cases r <;> simp_all [Except.map]
  case deleteOp =>
    rcases hd : deleteDatabase env s with ⟨sa, r⟩
    rw [hd] at hpo
    cases r <;> simp_all [Except.map]
  case unknown op => simp at hpo

/-- C8: for every cell value in a query result row, a string starting
with an opening brace or bracket that parses as JSON is stored parsed
under the column name; such a string that fails to parse is kept
unchanged; every other value is stored unchanged. -/
theorem claim8_query_cell_auto_parse (parse : String → Option Json) :
    (∀ s j, (jsStartsWith s openBraceChar || jsStartsWith s '[') = true → parse s = some j →
      autoParse parse (.vstr s) = .vjson j) ∧
    (∀ s, (jsStartsWith s openBraceChar || jsStartsWith s '[') = true → parse s = none →
      autoParse parse (.vstr s) = .vstr s) ∧
    (∀ s, (jsStartsWith s openBraceChar || jsStartsWith s '[') = false →
      autoParse parse (.vstr s) = .vstr s) ∧
    (∀ v, (∀ s, v ≠ .vstr s) → autoParse parse v = v) ∧
    (∀ columns row j, columns.Nodup → j < columns.length →
      (buildRow parse columns row).lookup (columns.getD j "")
        = some (autoParse parse (row.getD j .undef))) := by
  refine ⟨?_, ?_, ?_, ?_, ?_⟩
  · intro s j hs hp
    simp [autoParse, hs, hp]
  · intro s hs hp
    simp [autoParse, hs, hp]
  · intro s hs
    simp [autoParse, hs]
  · intro v hv
    cases v with
    | vstr s => exact absurd rfl (hv s)
    | vnull => rfl
    | vint i => rfl
    | vblob b => rfl
    | vjson j => rfl
    | undef => rfl
  · intro columns row j hnd hj
    exact buildRow_lookup parse columns row hnd j hj

/-- C8 witness: the four transform cases and the stored-under-column
fact at concrete inputs. -/
theorem claim8_witness :
    autoParse parse1 (.vstr "[1]") = .vjson (.jarr [.jnum 1]) ∧
    autoParse parse1 (.vstr "[2]") = .vstr "[2]" ∧
    autoParse parse1 (.vstr "hello") = .vstr "hello" ∧
    autoParse parse1 (.vint 5) = .vint 5 ∧
    (buildRow parse1 ["a"] [.vstr "[1]"]).lookup ((["a"] : List String).getD 0 "")
      = some (autoParse parse1 (([JSVal.vstr "[1]"]).getD 0 .undef)) := by
  refine ⟨(claim8_query_cell_auto_parse parse1).1 "[1]" (.jarr [.jnum 1]) rfl rfl,
          (claim8_query_cell_auto_parse parse1).2.1 "[2]" rfl rfl,
          (claim8_query_cell_auto_parse parse1).2.2.1 "hello" rfl,
          (claim8_query_cell_auto_parse parse1).2.2.2.1 (.vint 5)
            (fun s h => JSVal.noConfusion h),
          (claim8_query_cell_auto_parse parse1).2.2.2.2 ["a"] [.vstr "[1]"] 0
            (by simp) (by simp)⟩

/-- C9: the query result has one row object per emitted row, in
emission order (the i-th result is built from the i-th emitted row),
each mapping column names to that row's values. -/
theorem claim9_query_row_order (parse : String → Option Json) (em : QueryEmission) :
    (collectRows parse em).length = em.rows.length ∧
    (∀ i, i < em.rows.length →
      (collectRows parse em).getD i [] = buildRow parse em.columns (em.rows.getD i [])) ∧
    (em.columns.Nodup → ∀ i j, i < em.rows.length → j < em.columns.length →
      ((collectRows parse em).getD i []).lookup (em.columns.getD j "")
        = some (autoParse parse ((em.rows.getD i []).getD j .undef))) := by
  have hgetD : ∀ i, i < em.rows.length →
      (collectRows parse em).getD i [] = buildRow parse em.columns (em.rows.getD i []) := by
    intro i hi
    rw [collectRows_eq_map, List.getD_eq_getElem?_getD, List.getElem?_map,
      List.getElem?_eq_getElem hi, List.getD_eq_getElem?_getD em.rows,
      List.getElem?_eq_getElem hi]
    rfl
  refine ⟨?_, hgetD, ?_⟩
  · rw [collectRows_eq_map]
    exact List.length_map em.rows _
  · intro hnd i j hi hj
    rw [hgetD i hi]
    exact buildRow_lookup parse em.columns (em.rows.getD i []) hnd j hj

/-- C9 witness: row count, second row contents and cell lookup on a
concrete emission. -/
theorem claim9_witness :
    (collectRows parse1 em1).length = em1.rows.length ∧
    (collectRows parse1 em1).getD 1 [] = buildRow parse1 em1.columns (em1.rows.getD 1 []) ∧
    ((collectRows parse1 em1).getD 1 []).lookup (em1.columns.getD 0 "")
      = some (autoParse parse1 ((em1.rows.getD 1 []).getD 0 .undef)) := by
  refine ⟨(claim9_query_row_order parse1 em1).1,
          (claim9_query_row_order parse1 em1).2.1 1 (by simp [em1]),
          (claim9_query_row_order parse1 em1).2.2 (by simp [em1]) 1 0
            (by simp [em1]) (by simp [em1])⟩

/-- C1: for every inbound worker message, dispatch returns (never
throws) exactly one response whose id equals the request's id; an
exception raised while performing the operation is converted into an
error-status response carrying the exception's message, and a normal
return is never error-status, so no failure escapes the dispatch
boundary. -/
theorem claim1_dispatch_total_and_correlated (env : EngineEnv)
    (so eo : Option String) (s : WorkerState) (m : WorkerMessage) :
    ((onMessage env so eo s m).2.id = m.id) ∧
    ((handleDatabaseOperation env s m).2.id = m.id) ∧
    (∀ e, (performOperation env s m).2 = .error e →
      (handleDatabaseOperation env s m).2 =
        { id := m.id, status := .respError, results := none, error := some e }) ∧
    (∀ st res, (performOperation env s m).2 = .ok (st, res) →
      st ≠ .respError ∧
      (handleDatabaseOperation env s m).2 =
        { id := m.id, status := st, results := res, error := none }) := by
  have hkey : ∀ s1 r, performOperation env s m = (s1, r) →
      handleDatabaseOperation env s m =
        (s1, match r with
          | .error e => { id := m.id, status := .respError, results := none, error := some e }
          | .ok (st, res) => { id := m.id, status := st, results := res, error := none }) := by
    intro s1 r hpo
    unfold handleDatabaseOperation
    rw [hpo]
    cases r with
    | error e => rfl
    | ok p => rcases p with ⟨st, res⟩; rfl
  have hid : (handleDatabaseOperation env s m).2.id = m.id := by
    rw [hkey (performOperation env s m).1 (performOperation env s m).2 rfl]
    cases hr : (performOperation env s m).2 with
    | error e => rfl
    | ok p => rcases p with ⟨st, res⟩; rfl
  refine ⟨?_, hid, ?_, ?_⟩
  · unfold onMessage
    cases so with
    | none => exact hid
    | some a =>
      cases eo with
      | none => exact hid
      | some b =>
        dsimp only
        by_cases hab : b ≠ a
        · rw [if_pos hab]
        · rw [if_neg hab]
          exact hid
  · intro e he
    rw [hkey (performOperation env s m).1 (performOperation env s m).2 rfl, he]
  · intro st res hok
    have hpo : performOperation env s m = ((performOperation env s m).1, .ok (st, res)) := by
      rw [← hok]
    constructor
    · rcases performOperation_ok_status env s m _ st res hpo with h | h <;> simp [h]
    · rw [hkey (performOperation env s m).1 (performOperation env s m).2 rfl, hok]

/-- C1 witness: a malformed exec request (no SQL) on a concrete state
is answered by an error-status response with the thrown message and
the request's id. -/
theorem claim1_witness :
    (handleDatabaseOperation engineEnvOk openedState execNoSqlMsg).2 =
      { id := "m2", status := .respError, results := none,
        error := some "SQL required for exec" } :=
  (claim1_dispatch_total_and_correlated engineEnvOk none none openedState
    execNoSqlMsg).2.2.1 "SQL required for exec" rfl

/-- C7: for every run operation on an open connection, `changes` equals
the engine-reported row-change count, and `lastInsertRowId` is present
(equal to the engine's last-insert-id) exactly when that count is
positive; when the count is zero it is absent. -/
theorem claim7_run_metadata (env : EngineEnv) (s : WorkerState) (sql : String)
    (params : List JSVal) (hdb : s.dbOpen = true) :
    ∀ r, (runSQL env s sql params).2 = .ok r →
      r.changes = env.dbChanges ∧
      (r.lastInsertRowId.isSome ↔ 0 < env.dbChanges) ∧
      (env.dbChanges = 0 → r.lastInsertRowId = none) ∧
      (∀ v, env.selectLastRowid = .ok v → 0 < env.dbChanges →
        r.lastInsertRowId = some v) := by
  intro r hr
  unfold runSQL at hr
  rw [if_neg (by simp [hdb])] at hr
  cases hx : env.dbExec sql params with
  | error e => rw [hx] at hr; simp at hr
  | ok u =>
    rw [hx] at hr
    by_cases hc : env.dbChanges > 0
    · rw [if_pos hc] at hr
      cases hl : env.selectLastRowid with
      | error e => rw [hl] at hr; simp at hr
      | ok v =>
        rw [hl] at hr
        simp only [Except.ok.injEq] at hr
        subst hr
        refine ⟨rfl, by simp [hc], by omega, ?_⟩
        intro v' hv' _
        injection hv' with h3
        simp [h3]
    · rw [if_neg hc] at hr
      simp only [Except.ok.injEq] at hr
      subst hr
      have hz : env.dbChanges = 0 := by omega
      exact ⟨rfl, by simp [hz], fun _ => rfl, fun v _ hpos => absurd hpos hc⟩

/-- C7 witness: a run with one changed row and last-insert-id 42. -/
theorem claim7_witness :
    ({ lastInsertRowId := some 42, changes := 1 } : RunResult).changes
        = engineEnvCh1.dbChanges ∧
    (({ lastInsertRowId := some 42, changes := 1 } : RunResult).lastInsertRowId.isSome
        ↔ 0 < engineEnvCh1.dbChanges) ∧
    (engineEnvCh1.dbChanges = 0 →
      ({ lastInsertRowId := some 42, changes := 1 } : RunResult).lastInsertRowId = none) ∧
    (∀ v, engineEnvCh1.selectLastRowid = .ok v → 0 < engineEnvCh1.dbChanges →
      ({ lastInsertRowId := some 42, changes := 1 } : RunResult).lastInsertRowId = some v) :=
  claim7_run_metadata engineEnvCh1 openedState "INSERT INTO t VALUES (1)" [] rfl
    { lastInsertRowId := some 42, changes := 1 } rfl

/-- C10: a memdb init that completes leaves no backend handle; in such
a state every export request and every (well-formed) import request is
answered by the dedicated unsupported-capability error response and the
connection state is unchanged. -/
theorem claim10_memdb_export_import_unsupported (env : EngineEnv)
    (s : WorkerState) (m : WorkerMessage) (config : SQLiteWASMConfig) :
    (config.vfsType = some .memdb →
      ∀ s1 r, initDatabase env s config = (s1, r) → r = .ok () → s1.poolUtil = none) ∧
    (s.poolUtil = none → m.operation = .exportOp →
      handleDatabaseOperation env s m =
        (s, { id := m.id, status := .respError, results := none,
              error := some "Export not supported for this VFS type" })) ∧
    (s.poolUtil = none → m.operation = .importOp →
      (handleDatabaseOperation env s m).1 = s ∧
      (handleDatabaseOperation env s m).2.status = .respError ∧
      (strFalsy m.filename = false → m.data ≠ none →
        (handleDatabaseOperation env s m).2.error =
          some "Import not supported for this VFS type")) := by
  refine ⟨?_, ?_, ?_⟩
  · intro hv s1 r hinit hok
    subst hok
    unfold initDatabase at hinit
    cases him : env.importWasmModule with
    | error e => rw [him] at hinit; simp at hinit
    | ok u =>
      rw [him] at hinit
      cases hin : env.initWasmModule with
      | error e => rw [hin] at hinit; simp at hinit
      | ok u2 =>
        rw [hin] at hinit
        rw [hv] at hinit
        simp only [Option.getD_some] at hinit
        cases hinit
        rfl
  · intro hp hop
    unfold handleDatabaseOperation performOperation
    rw [hop]
    dsimp only
    unfold exportDatabase
    rw [hp]
    rfl
  · intro hp hop
    unfold handleDatabaseOperation performOperation
    rw [hop]
    dsimp only
    by_cases hg : strFalsy m.filename = true ∨ m.data = none
    · rw [if_pos hg]
      refine ⟨rfl, rfl, ?_⟩
      intro hf hd
      rcases hg with hg | hg
      · rw [hf] at hg; cases hg
      · exact absurd hg hd
    · rw [if_neg hg]
      unfold importDatabase
      rw [hp]
      exact ⟨rfl, rfl, fun _ _ => rfl⟩

/-- C10 witness: with a memdb-initialized state, the concrete export
and import requests get the dedicated errors and init leaves no pool
handle. -/
theorem claim10_witness :
    (initDatabase engineEnvOk openedState cfg0).1.poolUtil = none ∧
    handleDatabaseOperation engineEnvOk openedState exportMsg =
      (openedState, { id := "m3", status := .respError, results := none,
                      error := some "Export not supported for this VFS type" }) ∧
    (handleDatabaseOperation engineEnvOk openedState importMsg).2.error =
      some "Import not supported for this VFS type" := by
  refine ⟨?_, ?_, ?_⟩
  · exact (claim10_memdb_export_import_unsupported engineEnvOk openedState exportMsg
      cfg0).1 rfl (initDatabase engineEnvOk openedState cfg0).1
      (initDatabase engineEnvOk openedState cfg0).2 rfl rfl
  · exact (claim10_memdb_export_import_unsupported engineEnvOk openedState exportMsg
      cfg0).2.1 rfl rfl
  · exact ((claim10_memdb_export_import_unsupported engineEnvOk openedState importMsg
      cfg0).2.2 rfl rfl).2.2 rfl (by simp [importMsg])

/-- C2: the pending-request table: a send with a live worker inserts
exactly the freshly assigned id, which was not previously in the
table; a send with no worker rejects synchronously and inserts
nothing; a response whose id is in the table removes that entry
exactly once and settles its promise; a response whose id has no entry
leaves the table and every pending promise unchanged; the table
invariant is preserved by both transitions. -/
theorem claim2_pending_table (s : CtrlState) (resp : WorkerResponse)
    (hinv : CtrlInv s) :
    (s.worker.isSome = true →
      sendMessage s = ({ s with
                          messageId := s.messageId + 1,
                          pending := s.pending ++ [msgKey (s.messageId + 1)] },
                       .ok (msgKey (s.messageId + 1))) ∧
      msgKey (s.messageId + 1) ∉ s.pending ∧
      CtrlInv (sendMessage s).1) ∧
    (s.worker = none → sendMessage s = (s, .error "Worker not initialized")) ∧
    (resp.id ∈ s.pending →
      (handleWorkerMessage s resp).1.pending = s.pending.erase resp.id ∧
      resp.id ∉ (handleWorkerMessage s resp).1.pending ∧
      (handleWorkerMessage s resp).2.isSome = true ∧
      CtrlInv (handleWorkerMessage s resp).1) ∧
    (resp.id ∉ s.pending → handleWorkerMessage s resp = (s, none)) := by
  have hfresh : msgKey (s.messageId + 1) ∉ s.pending := by
    intro hmem
    obtain ⟨k, hk1, hk2, hk3⟩ := hinv.2 _ hmem
    have := msgKey_injective hk3
    omega
  refine ⟨?_, ?_, ?_, ?_⟩
  · intro hw
    obtain ⟨w, hw'⟩ := Option.isSome_iff_exists.mp hw
    have hsend : sendMessage s = ({ s with
        messageId := s.messageId + 1,
        pending := s.pending ++ [msgKey (s.messageId + 1)] },
        .ok (msgKey (s.messageId + 1))) := by
      unfold sendMessage
      rw [hw']
    refine ⟨hsend, hfresh, ?_⟩
    rw [hsend]
    constructor
    · dsimp only
      rw [List.nodup_append]
      refine ⟨hinv.1, List.nodup_singleton _, ?_⟩
      intro x hx hx2
      rw [List.mem_singleton] at hx2
      subst hx2
      exact hfresh hx
    · dsimp only
      intro id hid
      rcases List.mem_append.mp hid with h | h
      · obtain ⟨k, hk1, hk2, hk3⟩ := hinv.2 _ h
        exact ⟨k, hk1, by omega, hk3⟩
      · rw [List.mem_singleton] at h
        exact ⟨s.messageId + 1, by omega, by omega, h⟩
  · intro hw
    unfold sendMessage
    rw [hw]
  · intro hmem
    have hh : handleWorkerMessage s resp =
        ({ s with pending := s.pending.erase resp.id },
         some (if resp.status = .respError then .error (resp.error.getD "Unknown error")
               else .ok resp.results)) := by
      unfold handleWorkerMessage
      rw [if_pos hmem]
    rw [hh]
    refine ⟨rfl, ?_, rfl, ?_, ?_⟩
    · intro hc
      exact absurd ((hinv.1.mem_erase_iff).mp hc).1 (by simp)
    · exact hinv.1.erase resp.id
    · intro id hid
      exact hinv.2 id (List.mem_of_mem_erase hid)
  · intro hmem
    unfold handleWorkerMessage
    rw [if_neg hmem]

/-- C2 witness: on a controller with two outstanding requests, a send
inserts the fresh id msg_3, a response for msg_2 removes exactly that
entry, and a stray response is dropped without any effect. -/
theorem claim2_witness :
    (sendMessage sPend = ({ sPend with
        messageId := 3,
        pending := sPend.pending ++ [msgKey 3] }, .ok (msgKey 3)) ∧
      msgKey 3 ∉ sPend.pending) ∧
    (handleWorkerMessage sPend resp2).1.pending = sPend.pending.erase (msgKey 2) ∧
    handleWorkerMessage sPend strayResp = (sPend, none) := by
  have hinv : CtrlInv sPend := by
    constructor
    · refine List.nodup_cons.mpr ⟨?_, List.nodup_singleton _⟩
      rw [List.mem_singleton]
      intro h
      have := msgKey_injective h
      omega
    · intro id hid
      rcases List.mem_cons.mp hid with h | h
      · exact ⟨1, by omega, by simp [sPend], h⟩
      · rw [List.mem_singleton] at h
        exact ⟨2, by omega, by simp [sPend], h⟩
  refine ⟨?_, ?_, ?_⟩
  · have h := (claim2_pending_table sPend resp2 hinv).1 rfl
    exact ⟨h.1, h.2.1⟩
  · exact ((claim2_pending_table sPend resp2 hinv).2.2.1 (by decide)).1
  · exact (claim2_pending_table sPend strayResp hinv).2.2.2 (by decide)

theorem sendMessage_fields (s : CtrlState) :
    (sendMessage s).1.worker = s.worker ∧
    (sendMessage s).1.workerCount = s.workerCount ∧
    (sendMessage s).1.isReady = s.isReady ∧
    (sendMessage s).1.readyPromise = s.readyPromise ∧
    (sendMessage s).1.cfg = s.cfg := by
  rcases s with ⟨cfg, wc, wk, mid, pend, rdy, rp⟩
  unfold sendMessage
  cases wk <;> exact ⟨rfl, rfl, rfl, rfl, rfl⟩

theorem handleWorkerMessage_fields (s : CtrlState) (resp : WorkerResponse) :
    (handleWorkerMessage s resp).1.worker = s.worker ∧
    (handleWorkerMessage s resp).1.workerCount = s.workerCount ∧
    (handleWorkerMessage s resp).1.isReady = s.isReady ∧
    (handleWorkerMessage s resp).1.readyPromise = s.readyPromise ∧
    (handleWorkerMessage s resp).1.cfg = s.cfg := by
  rcases s with ⟨cfg, wc, wk, mid, pend, rdy, rp⟩
  unfold handleWorkerMessage
  split <;> exact ⟨rfl, rfl, rfl, rfl, rfl⟩

theorem awaitSend_fields (env : CtrlEnv) (s : CtrlState) (req : CtrlReq) :
    (awaitSend env s req).1.worker = s.worker ∧
    (awaitSend env s req).1.workerCount = s.workerCount ∧
    (awaitSend env s req).1.isReady = s.isReady ∧
    (awaitSend env s req).1.readyPromise = s.readyPromise ∧
    (awaitSend env s req).1.cfg = s.cfg := by
  unfold awaitSend
  rcases hs : sendMessage s with ⟨s1, r⟩
  have h1 := sendMessage_fields s
  rw [hs] at h1
  cases r with
  | error e => exact h1
  | ok id =>
    dsimp only
    rcases hh : handleWorkerMessage s1 (outcomeToResp id (env.respond s1.messageId req))
      with ⟨s2, settled⟩
    have h2 := handleWorkerMessage_fields s1 (outcomeToResp id (env.respond s1.messageId req))
    rw [hh] at h2
    cases settled with
    | some x =>
      exact ⟨h2.1.trans h1.1, (h2.2.1).trans h1.2.1, (h2.2.2.1).trans h1.2.2.1,
        (h2.2.2.2.1).trans h1.2.2.2.1, (h2.2.2.2.2).trans h1.2.2.2.2⟩
    | none =>
      exact ⟨h2.1.trans h1.1, (h2.2.1).trans h1.2.1, (h2.2.2.1).trans h1.2.2.1,
        (h2.2.2.2.1).trans h1.2.2.2.1, (h2.2.2.2.2).trans h1.2.2.2.2⟩

/-- C4 counterexample: with an executor that fails the first startup
request and would answer every later request successfully, the first
`ready()` rejects, and a second `ready()` on the resulting controller
returns the very same failed outcome and changes nothing — no fresh
initialization attempt is started, refuting "usable for retry". -/
theorem claim4_counterexample :
    (readyCtrl ctrlEnvFailFirst freshState).2 = .error "boom" ∧
    (readyCtrl ctrlEnvFailFirst (readyCtrl ctrlEnvFailFirst freshState).1).2 = .error "boom" ∧
    (readyCtrl ctrlEnvFailFirst (readyCtrl ctrlEnvFailFirst freshState).1).1 =
      (readyCtrl ctrlEnvFailFirst freshState).1 ∧
    ctrlEnvFailFirst.respond 2 (.openReq "t.db") = .ok none :=
  ⟨rfl, rfl, rfl, rfl⟩

/-- C4 (amended): if initialization fails, `ready()` rejects but caches
the failed promise: `readyPromise` is set to the failed outcome and the
controller is not marked ready; every subsequent `ready()` call returns
the same cached failed outcome with the controller state unchanged,
rather than starting a fresh initialization attempt. -/
theorem claim4_ready_caches_failure (env : CtrlEnv) (s : CtrlState) (e : String)
    (hnr : s.isReady = false) :
    (s.readyPromise = none → ∀ s1, initCtrl env s = (s1, .error e) →
      readyCtrl env s = ({ s1 with readyPromise := some (.error e) }, .error e)) ∧
    (s.readyPromise = some (.error e) → readyCtrl env s = (s, .error e)) := by
  constructor
  · intro hrp s1 hinit
    unfold readyCtrl
    rw [if_neg (by simp [hnr]), hrp]
    dsimp only
    rw [hinit]
  · intro hrp
    unfold readyCtrl
    rw [if_neg (by simp [hnr]), hrp]

/-- C4 witness: the cached-failure behaviour at the concrete failing
environment. -/
theorem claim4_witness :
    readyCtrl ctrlEnvFailFirst freshState =
      ({ (initCtrl ctrlEnvFailFirst freshState).1 with readyPromise := some (.error "boom") },
       .error "boom") ∧
    readyCtrl ctrlEnvFailFirst (readyCtrl ctrlEnvFailFirst freshState).1 =
      ((readyCtrl ctrlEnvFailFirst freshState).1, .error "boom") := by
  constructor
  · exact (claim4_ready_caches_failure ctrlEnvFailFirst freshState "boom" rfl).1 rfl
      (initCtrl ctrlEnvFailFirst freshState).1 rfl
  · exact (claim4_ready_caches_failure ctrlEnvFailFirst
      (readyCtrl ctrlEnvFailFirst freshState).1 "boom" rfl).2 rfl

/-- C5 counterexample: on a ready controller whose executor answers the
close request with an error response, `close()` rejects and performs no
teardown: the worker is not terminated and the controller is still
marked ready — refuting "unconditionally tears down regardless of
whether the response is success or error". -/
theorem claim5_counterexample :
    (closeCtrl ctrlEnvCloseFails readyState).2 = .error "close failed" ∧
    (closeCtrl ctrlEnvCloseFails readyState).1.isReady = true ∧
    (closeCtrl ctrlEnvCloseFails readyState).1.worker = some 0 :=
  ⟨rfl, rfl, rfl⟩

/-- C5 (amended): on a not-ready controller `close()` is a no-op; on a
ready controller it sends a close request and tears the executor down
(worker cleared, readiness flags reset) only when the close request
resolves; when the close request rejects (error-status response),
`close()` rejects and the teardown does not happen — the worker and the
ready flag are left as they were. -/
theorem claim5_close_teardown_conditional (env : CtrlEnv) (s : CtrlState) :
    (s.isReady = false → closeCtrl env s = (s, .ok ())) ∧
    (s.isReady = true → ∀ s1 e, awaitSend env s .closeReq = (s1, .error e) →
      closeCtrl env s = (s1, .error e) ∧ s1.isReady = true ∧ s1.worker = s.worker) ∧
    (s.isReady = true → ∀ s1 r, awaitSend env s .closeReq = (s1, .ok r) →
      closeCtrl env s =
        ({ s1 with worker := none, isReady := false, readyPromise := none }, .ok ())) := by
  refine ⟨?_, ?_, ?_⟩
  · intro hnr
    unfold closeCtrl
    rw [if_pos (by simp [hnr])]
  · intro hr s1 e hawait
    have hf := awaitSend_fields env s .closeReq
    rw [hawait] at hf
    refine ⟨?_, by rw [hf.2.2.1, hr], hf.1⟩
    unfold closeCtrl
    rw [if_neg (by simp [hr]), hawait]
  · intro hr s1 r hawait
    unfold closeCtrl
    rw [if_neg (by simp [hr]), hawait]

/-- C5 witness: the error-response branch at the concrete failing
environment, and the no-op branch on a fresh controller. -/
theorem claim5_witness :
    (closeCtrl ctrlEnvCloseFails readyState =
      ((awaitSend ctrlEnvCloseFails readyState .closeReq).1, .error "close failed") ∧
     (awaitSend ctrlEnvCloseFails readyState .closeReq).1.isReady = true ∧
     (awaitSend ctrlEnvCloseFails readyState .closeReq).1.worker = readyState.worker) ∧
    closeCtrl ctrlEnvCloseFails freshState = (freshState, .ok ()) := by
  constructor
  · exact (claim5_close_teardown_conditional ctrlEnvCloseFails readyState).2.1 rfl
      (awaitSend ctrlEnvCloseFails readyState .closeReq).1 "close failed" rfl
  · exact (claim5_close_teardown_conditional ctrlEnvCloseFails freshState).1 rfl

/-- C3 counterexample: on a controller that completed `close()`
(worker gone, readiness reset), a subsequent `exec` does not fail: with
an executor answering every request successfully it resolves with a
success outcome, and it does so by implicitly creating a brand-new
worker (serial number 1, after the closed worker 0) — refuting both
"fails synchronously with an explicit rejection" and "does not
implicitly re-initialize the executor". -/
theorem claim3_counterexample :
    (closeCtrl ctrlEnvOk readyState).1.worker = none ∧
    (execCtrl ctrlEnvOk (closeCtrl ctrlEnvOk readyState).1 "SELECT 1" none).2 = .ok none ∧
    (execCtrl ctrlEnvOk (closeCtrl ctrlEnvOk readyState).1 "SELECT 1" none).1.worker = some 1 ∧
    (execCtrl ctrlEnvOk (closeCtrl ctrlEnvOk readyState).1 "SELECT 1" none).1.isReady = true :=
  ⟨rfl, rfl, rfl, rfl⟩

/-- C3 (amended): after a completed `close()`, a data operation (exec,
query, run) does not fail synchronously: finding the controller not
ready it re-runs `ready()`, which starts a fresh initialization
(creating a new worker with the next serial number) and — when the
executor answers the startup and data requests successfully — the
operation resolves, leaving the controller ready again. -/
theorem claim3_data_op_after_close_reinitializes (env : CtrlEnv) (s0 : CtrlState)
    (w : Nat) (sql : String) (params : Option (List JSVal))
    (hok : ∀ n req, env.respond n req = .ok none)
    (hready : s0.isReady = true) (hw : s0.worker = some w) (hpend : s0.pending = []) :
    closeCtrl env s0 =
      ({ s0 with
         messageId := s0.messageId + 1, pending := [], worker := none,
         isReady := false, readyPromise := none }, .ok ()) ∧
    execCtrl env (closeCtrl env s0).1 sql params =
      ({ s0 with
         workerCount := s0.workerCount + 1, worker := some s0.workerCount,
         messageId := s0.messageId + 4, pending := [], isReady := true,
         readyPromise := some (.ok ()) }, .ok none) ∧
    queryCtrl env (closeCtrl env s0).1 sql params =
      ({ s0 with
         workerCount := s0.workerCount + 1, worker := some s0.workerCount,
         messageId := s0.messageId + 4, pending := [], isReady := true,
         readyPromise := some (.ok ()) }, .ok none) ∧
    runCtrl env (closeCtrl env s0).1 sql params =
      ({ s0 with
         workerCount := s0.workerCount + 1, worker := some s0.workerCount,
         messageId := s0.messageId + 4, pending := [], isReady := true,
         readyPromise := some (.ok ()) }, .ok none) := by
  rcases s0 with ⟨cfg, wc, wk, mid, pend, rdy, rp⟩
  dsimp only at hready hw hpend
  subst hready hpend hw
  have hclose : closeCtrl env ⟨cfg, wc, some w, mid, [], true, rp⟩ =
      (⟨cfg, wc, none, mid + 1, [], false, none⟩, .ok ()) := by
    simp [closeCtrl, awaitSend, sendMessage, handleWorkerMessage, outcomeToResp, hok]
  refine ⟨hclose, ?_, ?_, ?_⟩ <;> rw [hclose] <;>
    simp [execCtrl, queryCtrl, runCtrl, readyCtrl, initCtrl, awaitSend, sendMessage,
      handleWorkerMessage, outcomeToResp, hok]

/-- C3 witness: the amended behaviour at the concrete all-success
environment: exec after close resolves and the final controller holds
the fresh worker 1. -/
theorem claim3_witness :
    execCtrl ctrlEnvOk (closeCtrl ctrlEnvOk readyState).1 "SELECT 1" none =
      ({ readyState with
         workerCount := 2, worker := some 1, messageId := 6,
         pending := [], isReady := true, readyPromise := some (.ok ()) }, .ok none) :=
  (claim3_data_op_after_close_reinitializes ctrlEnvOk readyState 0 "SELECT 1" none
    (fun _ _ => rfl) rfl rfl rfl).2.1

theorem initDatabase_fields (env : EngineEnv) (s : WorkerState)
    (config : SQLiteWASMConfig) :
    (initDatabase env s config).1.currentConfig = some config ∧
    (initDatabase env s config).1.dbOpen = s.dbOpen := by
  unfold initDatabase
  cases env.importWasmModule with
  | error e => exact ⟨rfl, rfl⟩
  | ok u =>
    dsimp only
    cases env.initWasmModule with
    | error e => exact ⟨rfl, rfl⟩
    | ok u2 =>
      dsimp only
      cases config.vfsType.getD .opfs with
      | opfsSahpool =>
        dsimp only
        cases env.installSAHPool (jsOrNat config.poolInitialCapacity 3)
            (config.poolClearOnInit.getD false)
            (jsOrStr config.poolName "sqlite-wasm-pool") with
        | error e => exact ⟨rfl, rfl⟩
        | ok caps => exact ⟨rfl, rfl⟩
      | opfs => exact ⟨rfl, rfl⟩
      | memdb => exact ⟨rfl, rfl⟩

/-- C6 counterexample: handling an init request while a connection is
open is not an error: on a state with `db` open the response status is
'ready' (not 'error') and the stored configuration is overwritten by
the new one — refuting both halves of the claim. -/
theorem claim6_counterexample :
    (handleDatabaseOperation engineEnvOk openedState initMsg).2.status = .ready ∧
    RespStatus.ready ≠ RespStatus.respError ∧
    (handleDatabaseOperation engineEnvOk openedState initMsg).1.currentConfig = some cfg1 ∧
    openedState.currentConfig = some cfg0 ∧
    cfg1 ≠ cfg0 ∧
    openedState.dbOpen = true := by
  refine ⟨rfl, by decide, rfl, rfl, by decide, rfl⟩

/-- C6 (amended): an 'init' request is not guarded by open-ness: it
unconditionally overwrites the stored configuration (and reloads the
engine handles), responding 'ready' when the engine steps succeed,
with the open `db` handle left in place; the already-open guard lives
in the 'open' operation instead, which fails with "Database already
opened" and leaves the state unchanged. -/
theorem claim6_init_overwrites_when_open (env : EngineEnv) (s : WorkerState)
    (m : WorkerMessage) (config : SQLiteWASMConfig)
    (hop : m.operation = .initOp) (hcfg : m.config = some config) :
    (handleDatabaseOperation env s m).1.currentConfig = some config ∧
    ((initDatabase env s config).2 = .ok () →
      (handleDatabaseOperation env s m).2 =
        { id := m.id, status := .ready, results := none, error := none } ∧
      (handleDatabaseOperation env s m).1.dbOpen = s.dbOpen) ∧
    (∀ f, s.dbOpen = true → openDatabase env s f = (s, .error "Database already opened")) := by
  have hstate : (handleDatabaseOperation env s m).1 = (initDatabase env s config).1 := by
    unfold handleDatabaseOperation performOperation
    rw [hop]
    dsimp only
    rw [hcfg]
    dsimp only
    rcases hi : initDatabase env s config with ⟨sa, r⟩
    cases r <;> rfl
  refine ⟨?_, ?_, ?_⟩
  · rw [hstate]
    exact (initDatabase_fields env s config).1
  · intro hok
    constructor
    · unfold handleDatabaseOperation performOperation
      rw [hop]
      dsimp only
      rw [hcfg]
      dsimp only
      rcases hi : initDatabase env s config with ⟨sa, r⟩
      have : r = .ok () := by rw [hi] at hok; exact hok
      subst this
      rfl
    · rw [hstate]
      exact (initDatabase_fields env s config).2
  · intro f hdb
    unfold openDatabase
    rw [if_pos hdb]

/-- C6 witness: the amended behaviour at the concrete open state: init
responds 'ready', the configuration is overwritten, `db` stays open,
and a second 'open' fails with the dedicated error. -/
theorem claim6_witness :
    (handleDatabaseOperation engineEnvOk openedState initMsg).1.currentConfig = some cfg1 ∧
    (handleDatabaseOperation engineEnvOk openedState initMsg).2 =
      { id := "m1", status := .ready, results := none, error := none } ∧
    (handleDatabaseOperation engineEnvOk openedState initMsg).1.dbOpen = openedState.dbOpen ∧
    openDatabase engineEnvOk openedState "t.db" =
      (openedState, .error "Database already opened") := by
  obtain ⟨h1, h2, h3⟩ :=
    claim6_init_overwrites_when_open engineEnvOk openedState initMsg cfg1 rfl rfl
  obtain ⟨h2a, h2b⟩ := h2 rfl
  exact ⟨h1, h2a, h2b, h3 "t.db" rfl⟩

end SqliteWasmEasy
